import Mathlib

/-!
# Verification of `internal/dhcpd/check_other_dhcp.go` (AdGuardHome)

A shallow embedding of the two DHCP-server probes
`CheckIfOtherDHCPServersPresentV4` and `CheckIfOtherDHCPServersPresentV6`.

Each probe is embedded as a pure function over an explicit environment that
supplies the results of every external collaborator call the Go code makes
(interface lookup, address resolution, endpoint bind, send, the stream of
read results, and the packet codecs).  Besides the Go return value
`(bool, error)` the embedding also produces a trace of the I/O actions the
probe performs (`bind`, `send`, `setDeadline`, `read`, `close`) so that
ordering and resource claims are statable.

Bytes are `Nat`; byte strings are `List Nat`.  Go `error` values are the
inductive `GoError`; `fmt.Errorf` with a `%w` operand is `errorf msg (some e)`
and without a (non-nil) wrapped error `errorf msg none`.
-/

namespace DhcpProbe

/-- A byte of a Go `[]byte`. -/
abbrev Byte := Nat

/-- Go `error` values as the probes observe them: either a base error
(carrying whether its `Timeout()` method reports true, as `net.Error` does for
a read-deadline expiry), or an error produced by `fmt.Errorf` with a `%w`
operand wrapping another error. -/
inductive GoError where
  | base (msg : String) (timeoutFlag : Bool)
  | wrap (msg : String) (inner : GoError)
deriving DecidableEq

/-- Whether this error reports itself as a timeout (`net.Error.Timeout()`). -/
def GoError.timeout : GoError → Bool
  | .base _ t => t
  | .wrap _ _ => false

/-- The error wrapped via `%w`, if any (`errors.Unwrap`). -/
def GoError.wrapped : GoError → Option GoError
  | .base _ _ => none
  | .wrap _ e => some e

/-- `fmt.Errorf(msg, ..., err)`: when the `%w` operand is a non-nil error the
result wraps it; when the operand is nil (or there is no `%w` verb) the result
wraps nothing, which is how Go behaves for a nil `%w` operand. -/
def errorf (msg : String) (w : Option GoError) : GoError :=
  match w with
  | none => .base msg false
  | some e => .wrap msg e

/-- Modelled from the spec: the repository's `isTimeout` helper (it is not
among the given source files) is "a single predicate used by both probes to
distinguish 'the deadline I set on the socket elapsed' from any other I/O
error".  A nil error is not a timeout. -/
def isTimeout : Option GoError → Bool
  | none => false
  | some e => e.timeout

/-- Convenience: did an `Except`-returning collaborator call succeed? -/
def exceptOk {ε α : Type} : Except ε α → Bool
  | .ok _ => true
  | .error _ => false

/-- One result of `c.ReadFrom(b)`: either a packet (nil error) or an error,
which is a timeout when its `timeout` flag is set. -/
inductive ReadEvent where
  | packet (data : List Byte)
  | failure (e : GoError)
deriving DecidableEq

/-- An I/O action performed by a probe, recorded in its trace. -/
inductive Action where
  | bind | send | setDeadline | read | close
deriving DecidableEq, BEq

/-- `net.Interface` restricted to the field the probes read. -/
structure IfaceInfo where
  hardwareAddr : List Byte
deriving DecidableEq

/-- A resolved `*net.UDPAddr`, restricted to the IP the probes compare. -/
structure UDPAddr where
  ip : List Byte
deriving DecidableEq

/-! ## DHCPv4 -/

/-- `dhcpv4.OpcodeBootReply`. -/
def opcodeBootReply : Nat := 2

/-- `iana.HWTypeEthernet`. -/
def hwTypeEthernet : Nat := 1

/-- A decoded `*dhcpv4.DHCPv4` response, restricted to the fields the v4
matcher reads: `OpCode`, `HWType`, `ClientHWAddr`, `TransactionID`, and
whether `Options.Has(dhcpv4.OptionDHCPMessageType)`. -/
structure DHCPv4Resp where
  opCode : Nat
  hwType : Nat
  clientHWAddr : List Byte
  transactionID : List Byte
  hasMessageType : Bool
deriving DecidableEq

/-- The DISCOVER request built by `dhcpv4.NewDiscovery`, restricted to the
field correlated against replies: its transaction id. -/
structure ReqV4 where
  transactionID : List Byte
deriving DecidableEq

/-- The v4 acceptance condition, exactly the conjunction at
`check_other_dhcp.go` lines 110–114. -/
def matchV4 (resp : DHCPv4Resp) (reqXid : List Byte) (hwAddr : List Byte) : Bool :=
  resp.opCode == opcodeBootReply &&
  resp.hwType == hwTypeEthernet &&
  resp.clientHWAddr == hwAddr &&
  resp.transactionID == reqXid &&
  resp.hasMessageType

/-- The environment of one `CheckIfOtherDHCPServersPresentV4` call: the result
of each collaborator call the function makes, in program order. -/
structure EnvV4 where
  /-- Result of `net.InterfaceByName(ifaceName)`. -/
  interfaceByName : Except GoError IfaceInfo
  /-- Modelled from the spec: `getIfaceIPv4` (not among the given source
  files) returns "a list of bound local addresses for an interface" of the
  IPv4 family; the probe only checks emptiness and takes the first element. -/
  ifaceIPv4 : List (List Byte)
  /-- `runtime.GOOS`. -/
  goos : String
  /-- Result of `dhcpv4.NewDiscovery(iface.HardwareAddr)`. -/
  newDiscovery : Except GoError ReqV4
  /-- Result of `net.ResolveUDPAddr("udp4", src)`. -/
  resolveSrc : Except GoError UDPAddr
  /-- Result of `net.ResolveUDPAddr("udp4", dst)`. -/
  resolveDst : Except GoError UDPAddr
  /-- Result of `nclient4.NewRawUDPConn(ifaceName, 68)`. -/
  bind : Except GoError Unit
  /-- Result of `c.WriteTo(req.ToBytes(), dstAddr)`. -/
  send : Except GoError Unit
  /-- The successive results of `c.ReadFrom(b)`; when the list is exhausted
  the read deadline elapses, i.e. the next read yields a timeout error. -/
  reads : List ReadEvent
  /-- `dhcpv4.FromBytes`, the opaque packet codec. -/
  decode4 : List Byte → Except GoError DHCPv4Resp

/-- The v4 receive loop (`check_other_dhcp.go` lines 84–122).  Each iteration
sets the read deadline and reads; a timeout read returns `(false, nil)`, any
other read error returns `(false, wrapped)`, a packet that fails to decode or
fails the match is skipped and the loop recurses on the remaining reads. -/
def runLoopV4 (hwAddr reqXid : List Byte) (dec : List Byte → Except GoError DHCPv4Resp) :
    List ReadEvent → (Bool × Option GoError) × List Action
  | [] => ((false, none), [.setDeadline, .read])
  | .failure e :: _ =>
    if isTimeout (some e) then
      ((false, none), [.setDeadline, .read])
    else
      ((false, some (errorf "couldn't receive packet" (some e))), [.setDeadline, .read])
  | .packet d :: rest =>
    match dec d with
    | .error _ =>
      ((runLoopV4 hwAddr reqXid dec rest).1,
        .setDeadline :: .read :: (runLoopV4 hwAddr reqXid dec rest).2)
    | .ok resp =>
      if !(matchV4 resp reqXid hwAddr) then
        ((runLoopV4 hwAddr reqXid dec rest).1,
          .setDeadline :: .read :: (runLoopV4 hwAddr reqXid dec rest).2)
      else
        ((true, none), [.setDeadline, .read])

/-- A read event the v4 loop skips (continuing the loop): a packet that fails
to decode or decodes to a non-matching response. -/
def skipsV4 (hwAddr reqXid : List Byte) (dec : List Byte → Except GoError DHCPv4Resp) :
    ReadEvent → Bool
  | .failure _ => false
  | .packet d =>
    match dec d with
    | .error _ => true
    | .ok resp => !(matchV4 resp reqXid hwAddr)

/-- `CheckIfOtherDHCPServersPresentV4`, embedding the control flow of
`check_other_dhcp.go` lines 23–123.  The second component is the trace of I/O
actions; the deferred `c.Close()` registered after a successful bind appears
as the final `.close` of every such execution. -/
def checkV4 (env : EnvV4) : (Bool × Option GoError) × List Action :=
  match env.interfaceByName with
  | .error e =>
    ((false, some (errorf "couldn't find interface by name" (some e))), [])
  | .ok iface =>
    if env.ifaceIPv4.isEmpty then
      ((false, some (errorf "couldn't find IPv4 address of interface" none)), [])
    else if env.goos == "darwin" then
      ((false, some (errorf "can't find DHCP server: not supported on macOS" none)), [])
    else
      match env.newDiscovery with
      | .error e => ((false, some (errorf "dhcpv4.NewDiscovery" (some e))), [])
      | .ok req =>
        match env.resolveSrc with
        | .error e =>
          ((false, some (errorf "couldn't resolve UDP address src" (some e))), [])
        | .ok udpAddr =>
          if !(udpAddr.ip == env.ifaceIPv4.headI) then
            -- the `err` from ResolveUDPAddr is necessarily nil on this branch
            ((false, some (errorf "resolved UDP address is not src" none)), [])
          else
            match env.resolveDst with
            | .error e =>
              ((false, some (errorf "couldn't resolve UDP address dst" (some e))), [])
            | .ok _ =>
              match env.bind with
              | .error e =>
                ((false, some (errorf "couldn't listen on :68" (some e))), [.bind])
              | .ok _ =>
                match env.send with
                | .error e =>
                  ((false, some (errorf "couldn't send a packet to dst" (some e))),
                    [.bind, .send, .close])
                | .ok _ =>
                  ((runLoopV4 iface.hardwareAddr req.transactionID env.decode4 env.reads).1,
                    .bind :: .send ::
                      ((runLoopV4 iface.hardwareAddr req.transactionID env.decode4 env.reads).2
                        ++ [.close]))

/-! ## DHCPv6 -/

/-- `dhcpv6.MessageTypeAdvertise`. -/
def messageTypeAdvertise : Nat := 2

/-- A DHCPv6 DUID (client identifier option value). -/
structure Duid where
  bytes : List Byte
deriving DecidableEq

/-- `dhcpv6.Duid.Equal`: byte equality of the identifiers. -/
def duidEqual (a b : Duid) : Bool := a.bytes == b.bytes

/-- The inner `*dhcpv6.Message` obtained by `GetInnerMessage`, restricted to
the fields the v6 matcher reads: `TransactionID` and `Options.ClientID()`
(`nil` when the client-identifier option is absent). -/
structure MsgV6 where
  transactionID : List Byte
  clientID : Option Duid

/-- A decoded `dhcpv6.DHCPv6` response: its `Type()` and the result of
`GetInnerMessage()` (which fails on a malformed relay envelope). -/
structure RespV6 where
  msgType : Nat
  inner : Except GoError MsgV6

/-- The SOLICIT built by `dhcpv6.NewSolicit`.  Modelled from the spec: the
SOLICIT "carries a client-identifier option generated fresh for this request
and a transaction id", so its client identifier is always present. -/
structure ReqV6 where
  transactionID : List Byte
  clientID : Duid

/-- The v6 acceptance condition, exactly the conjunction at
`check_other_dhcp.go` lines 205–208; the `match` on `rcid` embeds the Go
short-circuit `rcid != nil && cid.Equal(*rcid)`. -/
def matchV6 (respType : Nat) (msgXid : List Byte) (rcid : Option Duid)
    (reqXid : List Byte) (cid : Duid) : Bool :=
  respType == messageTypeAdvertise &&
  msgXid == reqXid &&
  match rcid with
  | none => false
  | some r => duidEqual cid r

/-- Result of evaluating the v6 acceptance expression when pointer
dereferences are tracked: either a boolean, or a nil-pointer dereference. -/
inductive EvalResult where
  | ok (b : Bool)
  | nilDeref
deriving DecidableEq

/-- The raw v6 acceptance expression
`resp.Type() == Advertise && msg.TransactionID == req.TransactionID &&
rcid != nil && cid.Equal(*rcid)` with Go left-to-right short-circuit
evaluation and explicit nil-pointer dereferences: `*rcid` is only reached
after the `rcid != nil` guard, and calling `Equal` on a nil `cid` is a nil
dereference. -/
def matchV6eval (respType : Nat) (msgXid : List Byte) (rcid : Option Duid)
    (reqXid : List Byte) (cid : Option Duid) : EvalResult :=
  if !(respType == messageTypeAdvertise) then .ok false
  else if !(msgXid == reqXid) then .ok false
  else
    match rcid with
    | none => .ok false
    | some r =>
      match cid with
      | none => .nilDeref
      | some c => .ok (duidEqual c r)

/-- The environment of one `CheckIfOtherDHCPServersPresentV6` call. -/
structure EnvV6 where
  /-- Result of `net.InterfaceByName(ifaceName)`. -/
  interfaceByName : Except GoError IfaceInfo
  /-- Modelled from the spec: `getIfaceIPv6` (not among the given source
  files) returns the interface's bound IPv6 addresses. -/
  ifaceIPv6 : List (List Byte)
  /-- Result of `dhcpv6.NewSolicit(iface.HardwareAddr)`. -/
  newSolicit : Except GoError ReqV6
  /-- Result of `net.ResolveUDPAddr("udp6", src)`. -/
  resolveSrc : Except GoError UDPAddr
  /-- Result of `net.ResolveUDPAddr("udp6", dst)`. -/
  resolveDst : Except GoError UDPAddr
  /-- Result of `nclient6.NewIPv6UDPConn(ifaceName, dhcpv6.DefaultClientPort)`. -/
  bind : Except GoError Unit
  /-- Result of `c.WriteTo(req.ToBytes(), dstAddr)`. -/
  send : Except GoError Unit
  /-- The successive results of `c.ReadFrom(b)`; an exhausted list means the
  deadline elapses and the next read yields a timeout error. -/
  reads : List ReadEvent
  /-- `dhcpv6.FromBytes` combined with `GetInnerMessage`, the opaque codec. -/
  decode6 : List Byte → Except GoError RespV6

/-- The v6 receive loop (`check_other_dhcp.go` lines 175–214). -/
def runLoopV6 (reqXid : List Byte) (cid : Duid) (dec : List Byte → Except GoError RespV6) :
    List ReadEvent → (Bool × Option GoError) × List Action
  | [] => ((false, none), [.setDeadline, .read])
  | .failure e :: _ =>
    if isTimeout (some e) then
      ((false, none), [.setDeadline, .read])
    else
      ((false, some (errorf "couldn't receive packet" (some e))), [.setDeadline, .read])
  | .packet d :: rest =>
    match dec d with
    | .error _ =>
      ((runLoopV6 reqXid cid dec rest).1,
        .setDeadline :: .read :: (runLoopV6 reqXid cid dec rest).2)
    | .ok resp =>
      match resp.inner with
      | .error _ =>
        ((runLoopV6 reqXid cid dec rest).1,
          .setDeadline :: .read :: (runLoopV6 reqXid cid dec rest).2)
      | .ok msg =>
        if matchV6 resp.msgType msg.transactionID msg.clientID reqXid cid then
          ((true, none), [.setDeadline, .read])
        else
          ((runLoopV6 reqXid cid dec rest).1,
            .setDeadline :: .read :: (runLoopV6 reqXid cid dec rest).2)

/-- A read event the v6 loop skips: a packet that fails to decode, whose inner
message cannot be extracted, or that fails the match. -/
def skipsV6 (reqXid : List Byte) (cid : Duid) (dec : List Byte → Except GoError RespV6) :
    ReadEvent → Bool
  | .failure _ => false
  | .packet d =>
    match dec d with
    | .error _ => true
    | .ok resp =>
      match resp.inner with
      | .error _ => true
      | .ok msg => !(matchV6 resp.msgType msg.transactionID msg.clientID reqXid cid)

/-- `CheckIfOtherDHCPServersPresentV6`, embedding the control flow of
`check_other_dhcp.go` lines 127–215.  Unlike the v4 probe there is no
platform check. -/
def checkV6 (env : EnvV6) : (Bool × Option GoError) × List Action :=
  match env.interfaceByName with
  | .error e =>
    ((false, some (errorf "dhcpv6: net.InterfaceByName" (some e))), [])
  | .ok _ =>
    if env.ifaceIPv6.isEmpty then
      ((false, some (errorf "dhcpv6: couldn't find IPv6 address of interface" none)), [])
    else
      match env.newSolicit with
      | .error e => ((false, some (errorf "dhcpv6: dhcpv6.NewSolicit" (some e))), [])
      | .ok req =>
        match env.resolveSrc with
        | .error e =>
          ((false, some (errorf "dhcpv6: couldn't resolve UDP address src" (some e))), [])
        | .ok udpAddr =>
          if !(udpAddr.ip == env.ifaceIPv6.headI) then
            -- the `err` from ResolveUDPAddr is necessarily nil on this branch
            ((false, some (errorf "dhcpv6: resolved UDP address is not src" none)), [])
          else
            match env.resolveDst with
            | .error e =>
              ((false, some (errorf "dhcpv6: couldn't resolve UDP address dst" (some e))), [])
            | .ok _ =>
              match env.bind with
              | .error e =>
                ((false, some (errorf "dhcpv6: couldn't listen on :546" (some e))), [.bind])
              | .ok _ =>
                match env.send with
                | .error e =>
                  ((false, some (errorf "dhcpv6: couldn't send a packet to dst" (some e))),
                    [.bind, .send, .close])
                | .ok _ =>
                  ((runLoopV6 req.transactionID req.clientID env.decode6 env.reads).1,
                    .bind :: .send ::
                      ((runLoopV6 req.transactionID req.clientID env.decode6 env.reads).2
                        ++ [.close]))

/-- Did all the collaborator calls before the bind succeed (so that the v4
probe reaches `nclient4.NewRawUDPConn`)? -/
def preBindOkV4 (env : EnvV4) : Bool :=
  exceptOk env.interfaceByName &&
  !env.ifaceIPv4.isEmpty &&
  env.goos != "darwin" &&
  exceptOk env.newDiscovery &&
  (match env.resolveSrc with
   | .ok a => a.ip == env.ifaceIPv4.headI
   | .error _ => false) &&
  exceptOk env.resolveDst

/-- Did all the collaborator calls before the bind succeed (so that the v6
probe reaches `nclient6.NewIPv6UDPConn`)? -/
def preBindOkV6 (env : EnvV6) : Bool :=
  exceptOk env.interfaceByName &&
  !env.ifaceIPv6.isEmpty &&
  exceptOk env.newSolicit &&
  (match env.resolveSrc with
   | .ok a => a.ip == env.ifaceIPv6.headI
   | .error _ => false) &&
  exceptOk env.resolveDst

/-- Projection: the hardware address of the looked-up interface (used by the
v4 loop after a successful lookup). -/
def hwV4 (env : EnvV4) : List Byte :=
  match env.interfaceByName with
  | .ok i => i.hardwareAddr
  | .error _ => []

/-- Projection: the transaction id of the DISCOVER built for this call. -/
def xidV4 (env : EnvV4) : List Byte :=
  match env.newDiscovery with
  | .ok r => r.transactionID
  | .error _ => []

/-- Projection: the transaction id of the SOLICIT built for this call. -/
def xidV6 (env : EnvV6) : List Byte :=
  match env.newSolicit with
  | .ok r => r.transactionID
  | .error _ => []

/-- Projection: the client identifier of the SOLICIT built for this call. -/
def cidV6 (env : EnvV6) : Duid :=
  match env.newSolicit with
  | .ok r => r.clientID
  | .error _ => ⟨[]⟩

/-! ## Loop lemmas -/

theorem runLoopV4_count_deadline_eq_read (hw xid : List Byte)
    (dec : List Byte → Except GoError DHCPv4Resp) :
    ∀ evs : List ReadEvent,
      (runLoopV4 hw xid dec evs).2.count Action.setDeadline =
        (runLoopV4 hw xid dec evs).2.count Action.read
  | [] => by simp +decide [runLoopV4, List.count_cons]
  | .failure e :: rest => by
    by_cases h : isTimeout (some e) <;> simp +decide [runLoopV4, h, List.count_cons]
  | .packet d :: rest => by
    have ih := runLoopV4_count_deadline_eq_read hw xid dec rest
    rcases hd : dec d with e | resp
    · simp +decide [runLoopV4, hd, List.count_cons, ih]
    · by_cases hm : matchV4 resp xid hw <;>
        simp +decide [runLoopV4, hd, hm, List.count_cons, ih]

theorem runLoopV6_count_deadline_eq_read (rx : List Byte) (cid : Duid)
    (dec : List Byte → Except GoError RespV6) :
    ∀ evs : List ReadEvent,
      (runLoopV6 rx cid dec evs).2.count Action.setDeadline =
        (runLoopV6 rx cid dec evs).2.count Action.read
  | [] => by simp +decide [runLoopV6, List.count_cons]
  | .failure e :: rest => by
    by_cases h : isTimeout (some e) <;> simp +decide [runLoopV6, h, List.count_cons]
  | .packet d :: rest => by
    have ih := runLoopV6_count_deadline_eq_read rx cid dec rest
    rcases hd : dec d with e | resp
    · simp +decide [runLoopV6, hd, List.count_cons, ih]
    · rcases hi : resp.inner with e' | msg
      · simp +decide [runLoopV6, hd, hi, List.count_cons, ih]
      · by_cases hm : matchV6 resp.msgType msg.transactionID msg.clientID rx cid <;>
          simp +decide [runLoopV6, hd, hi, hm, List.count_cons, ih]

theorem runLoopV4_count_close (hw xid : List Byte)
    (dec : List Byte → Except GoError DHCPv4Resp) :
    ∀ evs : List ReadEvent, (runLoopV4 hw xid dec evs).2.count Action.close = 0
  | [] => by simp +decide [runLoopV4, List.count_cons]
  | .failure e :: rest => by
    by_cases h : isTimeout (some e) <;> simp +decide [runLoopV4, h, List.count_cons]
  | .packet d :: rest => by
    have ih := runLoopV4_count_close hw xid dec rest
    rcases hd : dec d with e | resp
    · simp +decide [runLoopV4, hd, List.count_cons, ih]
    · by_cases hm : matchV4 resp xid hw <;>
        simp +decide [runLoopV4, hd, hm, List.count_cons, ih]

theorem runLoopV6_count_close (rx : List Byte) (cid : Duid)
    (dec : List Byte → Except GoError RespV6) :
    ∀ evs : List ReadEvent, (runLoopV6 rx cid dec evs).2.count Action.close = 0
  | [] => by simp +decide [runLoopV6, List.count_cons]
  | .failure e :: rest => by
    by_cases h : isTimeout (some e) <;> simp +decide [runLoopV6, h, List.count_cons]
  | .packet d :: rest => by
    have ih := runLoopV6_count_close rx cid dec rest
    rcases hd : dec d with e | resp
    · simp +decide [runLoopV6, hd, List.count_cons, ih]
    · rcases hi : resp.inner with e' | msg
      · simp +decide [runLoopV6, hd, hi, List.count_cons, ih]
      · by_cases hm : matchV6 resp.msgType msg.transactionID msg.clientID rx cid <;>
          simp +decide [runLoopV6, hd, hi, hm, List.count_cons, ih]

/-- Every trace of the v4 receive loop starts with a deadline set followed by
a read. -/
theorem runLoopV4_trace_shape (hw xid : List Byte)
    (dec : List Byte → Except GoError DHCPv4Resp) :
    ∀ evs : List ReadEvent,
      ∃ t, (runLoopV4 hw xid dec evs).2 = .setDeadline :: .read :: t
  | [] => ⟨[], rfl⟩
  | .failure e :: rest => by
    by_cases h : isTimeout (some e)
    · exact ⟨[], by simp [runLoopV4, h]⟩
    · exact ⟨[], by simp [runLoopV4, h]⟩
  | .packet d :: rest => by
    rcases hd : dec d with e | resp
    · exact ⟨(runLoopV4 hw xid dec rest).2, by simp [runLoopV4, hd]⟩
    · by_cases hm : matchV4 resp xid hw
      · exact ⟨[], by simp [runLoopV4, hd, hm]⟩
      · exact ⟨(runLoopV4 hw xid dec rest).2, by simp [runLoopV4, hd, hm]⟩

/-- Every trace of the v6 receive loop starts with a deadline set followed by
a read. -/
theorem runLoopV6_trace_shape (rx : List Byte) (cid : Duid)
    (dec : List Byte → Except GoError RespV6) :
    ∀ evs : List ReadEvent,
      ∃ t, (runLoopV6 rx cid dec evs).2 = .setDeadline :: .read :: t
  | [] => ⟨[], rfl⟩
  | .failure e :: rest => by
    by_cases h : isTimeout (some e)
    · exact ⟨[], by simp [runLoopV6, h]⟩
    · exact ⟨[], by simp [runLoopV6, h]⟩
  | .packet d :: rest => by
    rcases hd : dec d with e | resp
    · exact ⟨(runLoopV6 rx cid dec rest).2, by simp [runLoopV6, hd]⟩
    · rcases hi : resp.inner with e' | msg
      · exact ⟨(runLoopV6 rx cid dec rest).2, by simp [runLoopV6, hd, hi]⟩
      · by_cases hm : matchV6 resp.msgType msg.transactionID msg.clientID rx cid
        · exact ⟨[], by simp [runLoopV6, hd, hi, hm]⟩
        · exact ⟨(runLoopV6 rx cid dec rest).2, by simp [runLoopV6, hd, hi, hm]⟩

theorem runLoopV4_skips_junk (hw xid : List Byte)
    (dec : List Byte → Except GoError DHCPv4Resp) :
    ∀ (junk evs : List ReadEvent), junk.all (skipsV4 hw xid dec) = true →
      (runLoopV4 hw xid dec (junk ++ evs)).1 = (runLoopV4 hw xid dec evs).1
  | [], evs, _ => rfl
  | ev :: junk, evs, h => by
    rw [List.all_cons, Bool.and_eq_true] at h
    obtain ⟨h1, h2⟩ := h
    have ih := runLoopV4_skips_junk hw xid dec junk evs h2
    cases ev with
    | failure e => simp [skipsV4] at h1
    | packet d =>
      rcases hd : dec d with e | resp
      · rw [List.cons_append]
        simp only [runLoopV4, hd]
        exact ih
      · simp only [skipsV4, hd, Bool.not_eq_true'] at h1
        rw [List.cons_append]
        simp only [runLoopV4, hd, h1, Bool.not_false, if_true]
        exact ih

theorem runLoopV6_skips_junk (rx : List Byte) (cid : Duid)
    (dec : List Byte → Except GoError RespV6) :
    ∀ (junk evs : List ReadEvent), junk.all (skipsV6 rx cid dec) = true →
      (runLoopV6 rx cid dec (junk ++ evs)).1 = (runLoopV6 rx cid dec evs).1
  | [], evs, _ => rfl
  | ev :: junk, evs, h => by
    rw [List.all_cons, Bool.and_eq_true] at h
    obtain ⟨h1, h2⟩ := h
    have ih := runLoopV6_skips_junk rx cid dec junk evs h2
    cases ev with
    | failure e => simp [skipsV6] at h1
    | packet d =>
      rcases hd : dec d with e | resp
      · rw [List.cons_append]
        simp only [runLoopV6, hd]
        exact ih
      · rcases hi : resp.inner with e' | msg
        · rw [List.cons_append]
          simp only [runLoopV6, hd, hi]
          exact ih
        · simp only [skipsV6, hd, hi, Bool.not_eq_true'] at h1
          rw [List.cons_append]
          simp only [runLoopV6, hd, hi, h1, if_neg]
          exact ih

/-- When every collaborator call up to and including bind and send succeeds,
the v4 probe is its receive loop, wrapped in the bind/send actions and the
deferred close. -/
theorem checkV4_loop (env : EnvV4) (hpre : preBindOkV4 env = true)
    (hb : env.bind = .ok ()) (hs : env.send = .ok ()) :
    checkV4 env =
      ((runLoopV4 (hwV4 env) (xidV4 env) env.decode4 env.reads).1,
        .bind :: .send ::
          ((runLoopV4 (hwV4 env) (xidV4 env) env.decode4 env.reads).2 ++ [.close])) := by
  simp only [preBindOkV4, Bool.and_eq_true, bne, Bool.not_eq_true'] at hpre
  obtain ⟨⟨⟨⟨⟨h1, h2⟩, h3⟩, h4⟩, h5⟩, h6⟩ := hpre
  rcases hi : env.interfaceByName with e | ifc
  · rw [hi] at h1; simp [exceptOk] at h1
  rcases hn : env.newDiscovery with e | req
  · rw [hn] at h4; simp [exceptOk] at h4
  rcases hr : env.resolveSrc with e | a
  · rw [hr] at h5; simp at h5
  rcases hrd : env.resolveDst with e | b
  · rw [hrd] at h6; simp [exceptOk] at h6
  rw [hr] at h5
  simp only at h5
  simp only [checkV4, hi, h2, Bool.false_eq_true, if_false, h3, hn, hr, h5,
    Bool.not_true, hrd, hb, hs, hwV4, xidV4]

/-- When every collaborator call up to and including bind and send succeeds,
the v6 probe is its receive loop, wrapped in the bind/send actions and the
deferred close. -/
theorem checkV6_loop (env : EnvV6) (hpre : preBindOkV6 env = true)
    (hb : env.bind = .ok ()) (hs : env.send = .ok ()) :
    checkV6 env =
      ((runLoopV6 (xidV6 env) (cidV6 env) env.decode6 env.reads).1,
        .bind :: .send ::
          ((runLoopV6 (xidV6 env) (cidV6 env) env.decode6 env.reads).2 ++ [.close])) := by
  simp only [preBindOkV6, Bool.and_eq_true, Bool.not_eq_true'] at hpre
  obtain ⟨⟨⟨⟨h1, h2⟩, h4⟩, h5⟩, h6⟩ := hpre
  rcases hi : env.interfaceByName with e | ifc
  · rw [hi] at h1; simp [exceptOk] at h1
  rcases hn : env.newSolicit with e | req
  · rw [hn] at h4; simp [exceptOk] at h4
  rcases hr : env.resolveSrc with e | a
  · rw [hr] at h5; simp at h5
  rcases hrd : env.resolveDst with e | b
  · rw [hrd] at h6; simp [exceptOk] at h6
  rw [hr] at h5
  simp only at h5
  simp only [checkV6, hi, h2, Bool.false_eq_true, if_false, hn, hr, h5,
    Bool.not_true, hrd, hb, hs, xidV6, cidV6]

/-- Characterization of the v4 acceptance condition. -/
theorem matchV4_eq_true_iff (resp : DHCPv4Resp) (xid hw : List Byte) :
    matchV4 resp xid hw = true ↔
      (resp.opCode = opcodeBootReply ∧ resp.hwType = hwTypeEthernet ∧
       resp.clientHWAddr = hw ∧ resp.transactionID = xid ∧ resp.hasMessageType = true) := by
  simp [matchV4, Bool.and_eq_true, and_assoc]

/-- Characterization of the v6 acceptance condition. -/
theorem matchV6_eq_true_iff (t : Nat) (x : List Byte) (rcid : Option Duid)
    (rx : List Byte) (c : Duid) :
    matchV6 t x rcid rx c = true ↔
      (t = messageTypeAdvertise ∧ x = rx ∧ ∃ r, rcid = some r ∧ c.bytes = r.bytes) := by
  cases rcid <;> simp [matchV6, duidEqual, Bool.and_eq_true, and_assoc]

/-! ## Claims -/

/-- A concrete v4 environment: all setup succeeds, two malformed packets
arrive, then the deadline elapses. -/
def envC1 : EnvV4 :=
  { interfaceByName := .ok ⟨[1, 2, 3, 4, 5, 6]⟩
    ifaceIPv4 := [[192, 168, 1, 10]]
    goos := "linux"
    newDiscovery := .ok ⟨[17, 34, 51, 68]⟩
    resolveSrc := .ok ⟨[192, 168, 1, 10]⟩
    resolveDst := .ok ⟨[255, 255, 255, 255]⟩
    bind := .ok ()
    send := .ok ()
    reads := [.packet [0], .packet [1]]
    decode4 := fun _ => .error (.base "malformed" false) }

/-- **C1** is false of the code: the read deadline is not set once before the
receive loop — `SetReadDeadline` is the first statement of every loop
iteration.  In an execution with two malformed packets before silence, the
deadline is set three times, not once. -/
theorem claim1_deadline_counterexample :
    (checkV4 envC1).2.count Action.setDeadline = 3 ∧
      ¬((checkV4 envC1).2.count Action.setDeadline ≤ 1) := by
  decide

/-- **C1** (amended): in both probes the read deadline is refreshed at the
top of every loop iteration — the trace carries exactly one `setDeadline` per
`read`, so each read waits up to `defaultDiscoverTime` measured from just
before that read, and the receive loop is not confined to a single
`defaultDiscoverTime` window when packets keep arriving. -/
theorem claim1_deadline_refreshed_per_read (env4 : EnvV4) (env6 : EnvV6) :
    (checkV4 env4).2.count Action.setDeadline = (checkV4 env4).2.count Action.read ∧
    (checkV6 env6).2.count Action.setDeadline = (checkV6 env6).2.count Action.read := by
  constructor
  · unfold checkV4
    repeat' split
    all_goals
      simp +decide [List.count_cons, List.count_append,
        runLoopV4_count_deadline_eq_read]
  · unfold checkV6
    repeat' split
    all_goals
      simp +decide [List.count_cons, List.count_append,
        runLoopV6_count_deadline_eq_read]

/-- **C2**: after any number of skipped packets, a read that fails with a
timeout-classified error makes the probe loop return `(false, nil)`, and a
read that fails with any other error makes it return `(false, err)` where
`err` is the non-nil wrapped receive error; a non-timeout read error is never
a nil-error negative result and a timeout is never an error. -/
theorem claim2_timeout_vs_transport_error
    (hw xid : List Byte) (dec4 : List Byte → Except GoError DHCPv4Resp)
    (junk4 rest4 : List ReadEvent) (e4 : GoError)
    (rx : List Byte) (cid : Duid) (dec6 : List Byte → Except GoError RespV6)
    (junk6 rest6 : List ReadEvent) (e6 : GoError)
    (h4 : junk4.all (skipsV4 hw xid dec4) = true)
    (h6 : junk6.all (skipsV6 rx cid dec6) = true) :
    ((e4.timeout = true →
        (runLoopV4 hw xid dec4 (junk4 ++ .failure e4 :: rest4)).1 = (false, none)) ∧
     (e4.timeout = false →
        (runLoopV4 hw xid dec4 (junk4 ++ .failure e4 :: rest4)).1 =
          (false, some (errorf "couldn't receive packet" (some e4))))) ∧
    ((e6.timeout = true →
        (runLoopV6 rx cid dec6 (junk6 ++ .failure e6 :: rest6)).1 = (false, none)) ∧
     (e6.timeout = false →
        (runLoopV6 rx cid dec6 (junk6 ++ .failure e6 :: rest6)).1 =
          (false, some (errorf "couldn't receive packet" (some e6))))) := by
  rw [runLoopV4_skips_junk hw xid dec4 junk4 _ h4,
    runLoopV6_skips_junk rx cid dec6 junk6 _ h6]
  refine ⟨⟨?_, ?_⟩, ?_, ?_⟩ <;> intro ht <;>
    simp [runLoopV4, runLoopV6, isTimeout, ht]

/-- Witness for **C2** at concrete inputs: one skipped malformed packet, then
a timeout error (v4) and a connection error (v6). -/
theorem claim2_witness :
    (runLoopV4 [1] [2] (fun _ => .error (.base "malformed" false))
        ([.packet [9]] ++ .failure (.base "i/o timeout" true) :: [])).1 =
      (false, none) ∧
    (runLoopV6 [2] ⟨[3]⟩ (fun _ => .error (.base "malformed" false))
        ([.packet [9]] ++ .failure (.base "connection refused" false) :: [])).1 =
      (false, some (errorf "couldn't receive packet"
        (some (.base "connection refused" false)))) := by
  constructor
  · exact (claim2_timeout_vs_transport_error [1] [2]
      (fun _ => .error (.base "malformed" false)) [.packet [9]] []
      (.base "i/o timeout" true) [2] ⟨[3]⟩
      (fun _ => .error (.base "malformed" false)) [.packet [9]] []
      (.base "connection refused" false) (by decide) (by decide)).1.1 rfl
  · exact (claim2_timeout_vs_transport_error [1] [2]
      (fun _ => .error (.base "malformed" false)) [.packet [9]] []
      (.base "i/o timeout" true) [2] ⟨[3]⟩
      (fun _ => .error (.base "malformed" false)) [.packet [9]] []
      (.base "connection refused" false) (by decide) (by decide)).2.2 rfl

/-- **C3**: the v4 loop accepts a decoded response (returning `(true, nil)`
immediately) exactly when all five conditions hold — boot-reply opcode,
Ethernet hardware type, client hardware address equal to the interface's,
transaction id equal to the request's, and a DHCP message-type option; on any
mismatch the response is discarded and the loop continues, and in particular
a mismatched transaction id or client hardware address is never accepted. -/
theorem claim3_v4_accept_iff
    (hw xid : List Byte) (dec : List Byte → Except GoError DHCPv4Resp)
    (d : List Byte) (rest : List ReadEvent) (resp : DHCPv4Resp)
    (hd : dec d = .ok resp) :
    ((runLoopV4 hw xid dec (.packet d :: rest) =
        ((true, none), [.setDeadline, .read])) ↔
      (resp.opCode = opcodeBootReply ∧ resp.hwType = hwTypeEthernet ∧
       resp.clientHWAddr = hw ∧ resp.transactionID = xid ∧
       resp.hasMessageType = true)) ∧
    (matchV4 resp xid hw = false →
      (runLoopV4 hw xid dec (.packet d :: rest)).1 = (runLoopV4 hw xid dec rest).1) ∧
    ((resp.transactionID ≠ xid ∨ resp.clientHWAddr ≠ hw) →
      runLoopV4 hw xid dec (.packet d :: rest) ≠ ((true, none), [.setDeadline, .read])) := by
  have hcont : matchV4 resp xid hw = false →
      runLoopV4 hw xid dec (.packet d :: rest) =
        ((runLoopV4 hw xid dec rest).1,
          .setDeadline :: .read :: (runLoopV4 hw xid dec rest).2) := by
    intro hm
    simp [runLoopV4, hd, hm]
  have hacc : matchV4 resp xid hw = true →
      runLoopV4 hw xid dec (.packet d :: rest) = ((true, none), [.setDeadline, .read]) := by
    intro hm
    simp [runLoopV4, hd, hm]
  have hne : matchV4 resp xid hw = false →
      runLoopV4 hw xid dec (.packet d :: rest) ≠ ((true, none), [.setDeadline, .read]) := by
    intro hm hEq
    rw [hcont hm] at hEq
    obtain ⟨t, ht⟩ := runLoopV4_trace_shape hw xid dec rest
    have h2 := congrArg Prod.snd hEq
    simp [ht] at h2
  refine ⟨⟨?_, ?_⟩, ?_, ?_⟩
  · intro hEq
    cases hm : matchV4 resp xid hw with
    | true => exact (matchV4_eq_true_iff resp xid hw).1 hm
    | false => exact absurd hEq (hne hm)
  · intro hcond
    exact hacc ((matchV4_eq_true_iff resp xid hw).2 hcond)
  · intro hm
    rw [hcont hm]
  · intro hOr hEq
    cases hm : matchV4 resp xid hw with
    | false => exact hne hm hEq
    | true =>
      obtain ⟨_, _, hchaddr, hxid, _⟩ := (matchV4_eq_true_iff resp xid hw).1 hm
      cases hOr with
      | inl h => exact h hxid
      | inr h => exact h hchaddr

/-- Witness for **C3**: a fully matching concrete reply is accepted. -/
theorem claim3_witness :
    runLoopV4 [1] [2] (fun _ => .ok ⟨2, 1, [1], [2], true⟩) [.packet []] =
      ((true, none), [.setDeadline, .read]) :=
  (claim3_v4_accept_iff [1] [2] (fun _ => .ok ⟨2, 1, [1], [2], true⟩) [] []
    ⟨2, 1, [1], [2], true⟩ rfl).1.2 ⟨rfl, rfl, rfl, rfl, rfl⟩

/-- **C4**: the v6 loop accepts a decoded response with extractable inner
message (returning `(true, nil)` immediately) exactly when all four
conditions hold — ADVERTISE message type, inner transaction id equal to the
request's, a present (non-nil) client-identifier option, and that identifier
byte-equal to the one sent in the SOLICIT; any mismatch discards the response
and continues the loop, and in particular a non-ADVERTISE reply or one with a
missing or different client identifier is never accepted. -/
theorem claim4_v6_accept_iff
    (rx : List Byte) (cid : Duid) (dec : List Byte → Except GoError RespV6)
    (d : List Byte) (rest : List ReadEvent) (resp : RespV6) (msg : MsgV6)
    (hd : dec d = .ok resp) (hin : resp.inner = .ok msg) :
    ((runLoopV6 rx cid dec (.packet d :: rest) =
        ((true, none), [.setDeadline, .read])) ↔
      (resp.msgType = messageTypeAdvertise ∧ msg.transactionID = rx ∧
       ∃ r, msg.clientID = some r ∧ cid.bytes = r.bytes)) ∧
    (matchV6 resp.msgType msg.transactionID msg.clientID rx cid = false →
      (runLoopV6 rx cid dec (.packet d :: rest)).1 = (runLoopV6 rx cid dec rest).1) ∧
    ((resp.msgType ≠ messageTypeAdvertise ∨ msg.clientID = none ∨
        (∀ r, msg.clientID = some r → cid.bytes ≠ r.bytes)) →
      runLoopV6 rx cid dec (.packet d :: rest) ≠ ((true, none), [.setDeadline, .read])) := by
  have hcont : matchV6 resp.msgType msg.transactionID msg.clientID rx cid = false →
      runLoopV6 rx cid dec (.packet d :: rest) =
        ((runLoopV6 rx cid dec rest).1,
          .setDeadline :: .read :: (runLoopV6 rx cid dec rest).2) := by
    intro hm
    simp [runLoopV6, hd, hin, hm]
  have hacc : matchV6 resp.msgType msg.transactionID msg.clientID rx cid = true →
      runLoopV6 rx cid dec (.packet d :: rest) = ((true, none), [.setDeadline, .read]) := by
    intro hm
    simp [runLoopV6, hd, hin, hm]
  have hne : matchV6 resp.msgType msg.transactionID msg.clientID rx cid = false →
      runLoopV6 rx cid dec (.packet d :: rest) ≠ ((true, none), [.setDeadline, .read]) := by
    intro hm hEq
    rw [hcont hm] at hEq
    obtain ⟨t, ht⟩ := runLoopV6_trace_shape rx cid dec rest
    have h2 := congrArg Prod.snd hEq
    simp [ht] at h2
  refine ⟨⟨?_, ?_⟩, ?_, ?_⟩
  · intro hEq
    cases hm : matchV6 resp.msgType msg.transactionID msg.clientID rx cid with
    | true => exact (matchV6_eq_true_iff _ _ _ _ _).1 hm
    | false => exact absurd hEq (hne hm)
  · intro hcond
    exact hacc ((matchV6_eq_true_iff _ _ _ _ _).2 hcond)
  · intro hm
    rw [hcont hm]
  · intro hOr hEq
    cases hm : matchV6 resp.msgType msg.transactionID msg.clientID rx cid with
    | false => exact hne hm hEq
    | true =>
      obtain ⟨hT, hX, r, hr, hb⟩ := (matchV6_eq_true_iff _ _ _ _ _).1 hm
      rcases hOr with h | h | h
      · exact h hT
      · rw [h] at hr; exact Option.noConfusion hr
      · exact h r hr hb

/-- Witness for **C4**: a fully matching concrete ADVERTISE is accepted. -/
theorem claim4_witness :
    runLoopV6 [7] ⟨[3]⟩ (fun _ => .ok ⟨2, .ok ⟨[7], some ⟨[3]⟩⟩⟩) [.packet []] =
      ((true, none), [.setDeadline, .read]) :=
  (claim4_v6_accept_iff [7] ⟨[3]⟩ (fun _ => .ok ⟨2, .ok ⟨[7], some ⟨[3]⟩⟩⟩) [] []
    ⟨2, .ok ⟨[7], some ⟨[3]⟩⟩⟩ ⟨[7], some ⟨[3]⟩⟩ rfl rfl).1.2
    ⟨rfl, rfl, ⟨[3]⟩, rfl, rfl⟩

/-- **C5**: when the interface lookup fails, or the interface has no address
of the requested family, the probe returns `(false, non-nil error)` with an
empty I/O trace — no bind, send, or read is performed. -/
theorem claim5_config_error_no_io
    (env4 : EnvV4) (env6 : EnvV6)
    (h4 : exceptOk env4.interfaceByName = false ∨ env4.ifaceIPv4 = [])
    (h6 : exceptOk env6.interfaceByName = false ∨ env6.ifaceIPv6 = []) :
    ((checkV4 env4).1.1 = false ∧ (checkV4 env4).1.2 ≠ none ∧ (checkV4 env4).2 = []) ∧
    ((checkV6 env6).1.1 = false ∧ (checkV6 env6).1.2 ≠ none ∧ (checkV6 env6).2 = []) := by
  constructor
  · rcases hi : env4.interfaceByName with e | ifc
    · simp [checkV4, hi]
    · rcases h4 with h | h
      · rw [hi] at h
        simp [exceptOk] at h
      · simp [checkV4, hi, h]
  · rcases hi : env6.interfaceByName with e | ifc
    · simp [checkV6, hi]
    · rcases h6 with h | h
      · rw [hi] at h
        simp [exceptOk] at h
      · simp [checkV6, hi, h]

/-- A v4 environment whose interface lookup fails. -/
def envC5v4 : EnvV4 :=
  { interfaceByName := .error (.base "no such network interface" false)
    ifaceIPv4 := []
    goos := "linux"
    newDiscovery := .ok ⟨[0, 0, 0, 0]⟩
    resolveSrc := .ok ⟨[]⟩
    resolveDst := .ok ⟨[]⟩
    bind := .ok ()
    send := .ok ()
    reads := []
    decode4 := fun _ => .error (.base "malformed" false) }

/-- A v6 environment whose interface has no IPv6 address. -/
def envC5v6 : EnvV6 :=
  { interfaceByName := .ok ⟨[1, 2, 3, 4, 5, 6]⟩
    ifaceIPv6 := []
    newSolicit := .ok ⟨[0, 0, 0], ⟨[1]⟩⟩
    resolveSrc := .ok ⟨[]⟩
    resolveDst := .ok ⟨[]⟩
    bind := .ok ()
    send := .ok ()
    reads := []
    decode6 := fun _ => .error (.base "malformed" false) }

/-- Witness for **C5** at concrete environments. -/
theorem claim5_witness :
    ((checkV4 envC5v4).1.1 = false ∧ (checkV4 envC5v4).1.2 ≠ none ∧
      (checkV4 envC5v4).2 = []) ∧
    ((checkV6 envC5v6).1.1 = false ∧ (checkV6 envC5v6).1.2 ≠ none ∧
      (checkV6 envC5v6).2 = []) :=
  claim5_config_error_no_io envC5v4 envC5v6 (Or.inl (by decide)) (Or.inr rfl)

/-- **C6**: malformed or non-matching packets (decode failure, inner-message
extraction failure, correlation mismatch) are never surfaced as errors and
never terminate the probe: when the reads are any skipped prefix followed by
a matching reply, both probes return `(true, nil)`. -/
theorem claim6_junk_then_match_accepted
    (env4 : EnvV4) (junk4 : List ReadEvent) (d4 : List Byte) (rest4 : List ReadEvent)
    (resp4 : DHCPv4Resp)
    (env6 : EnvV6) (junk6 : List ReadEvent) (d6 : List Byte) (rest6 : List ReadEvent)
    (resp6 : RespV6) (msg6 : MsgV6)
    (hpre4 : preBindOkV4 env4 = true) (hb4 : env4.bind = .ok ()) (hs4 : env4.send = .ok ())
    (hr4 : env4.reads = junk4 ++ .packet d4 :: rest4)
    (hj4 : junk4.all (skipsV4 (hwV4 env4) (xidV4 env4) env4.decode4) = true)
    (hd4 : env4.decode4 d4 = .ok resp4)
    (hm4 : matchV4 resp4 (xidV4 env4) (hwV4 env4) = true)
    (hpre6 : preBindOkV6 env6 = true) (hb6 : env6.bind = .ok ()) (hs6 : env6.send = .ok ())
    (hr6 : env6.reads = junk6 ++ .packet d6 :: rest6)
    (hj6 : junk6.all (skipsV6 (xidV6 env6) (cidV6 env6) env6.decode6) = true)
    (hd6 : env6.decode6 d6 = .ok resp6) (hin6 : resp6.inner = .ok msg6)
    (hm6 : matchV6 resp6.msgType msg6.transactionID msg6.clientID
      (xidV6 env6) (cidV6 env6) = true) :
    (checkV4 env4).1 = (true, none) ∧ (checkV6 env6).1 = (true, none) := by
  constructor
  · rw [checkV4_loop env4 hpre4 hb4 hs4]
    show (runLoopV4 (hwV4 env4) (xidV4 env4) env4.decode4 env4.reads).1 = (true, none)
    rw [hr4, runLoopV4_skips_junk _ _ _ _ _ hj4]
    simp [runLoopV4, hd4, hm4]
  · rw [checkV6_loop env6 hpre6 hb6 hs6]
    show (runLoopV6 (xidV6 env6) (cidV6 env6) env6.decode6 env6.reads).1 = (true, none)
    rw [hr6, runLoopV6_skips_junk _ _ _ _ _ hj6]
    simp [runLoopV6, hd6, hin6, hm6]

/-- A v4 environment: setup succeeds, a malformed packet precedes a matching
boot-reply. -/
def envC6v4 : EnvV4 :=
  { interfaceByName := .ok ⟨[1, 2, 3, 4, 5, 6]⟩
    ifaceIPv4 := [[192, 168, 1, 10]]
    goos := "linux"
    newDiscovery := .ok ⟨[17, 34, 51, 68]⟩
    resolveSrc := .ok ⟨[192, 168, 1, 10]⟩
    resolveDst := .ok ⟨[255, 255, 255, 255]⟩
    bind := .ok ()
    send := .ok ()
    reads := [.packet [9], .packet [1]]
    decode4 := fun d =>
      if d == [1] then .ok ⟨2, 1, [1, 2, 3, 4, 5, 6], [17, 34, 51, 68], true⟩
      else .error (.base "malformed" false) }

/-- A v6 environment: setup succeeds, a malformed packet precedes a matching
ADVERTISE. -/
def envC6v6 : EnvV6 :=
  { interfaceByName := .ok ⟨[1, 2, 3, 4, 5, 6]⟩
    ifaceIPv6 := [[254, 128, 0, 1]]
    newSolicit := .ok ⟨[7, 8, 9], ⟨[3, 4]⟩⟩
    resolveSrc := .ok ⟨[254, 128, 0, 1]⟩
    resolveDst := .ok ⟨[255, 2, 1, 2]⟩
    bind := .ok ()
    send := .ok ()
    reads := [.packet [9], .packet [1]]
    decode6 := fun d =>
      if d == [1] then .ok ⟨2, .ok ⟨[7, 8, 9], some ⟨[3, 4]⟩⟩⟩
      else .error (.base "malformed" false) }

/-- Witness for **C6** at concrete environments. -/
theorem claim6_witness :
    (checkV4 envC6v4).1 = (true, none) ∧ (checkV6 envC6v6).1 = (true, none) :=
  claim6_junk_then_match_accepted envC6v4 [.packet [9]] [1] []
    ⟨2, 1, [1, 2, 3, 4, 5, 6], [17, 34, 51, 68], true⟩
    envC6v6 [.packet [9]] [1] [] ⟨2, .ok ⟨[7, 8, 9], some ⟨[3, 4]⟩⟩⟩
    ⟨[7, 8, 9], some ⟨[3, 4]⟩⟩
    (by decide) rfl rfl rfl (by decide) rfl (by decide)
    (by decide) rfl rfl rfl (by decide) rfl rfl (by decide)

/-- **C7**: on `runtime.GOOS = "darwin"` the v4 probe returns
`(false, non-nil error)` with an empty I/O trace — no bind, send or read is
ever attempted — and when the interface lookup and address check pass, the
error is exactly the explicit unsupported-platform error. -/
theorem claim7_darwin_fails_fast (env : EnvV4) (h : env.goos = "darwin") :
    (checkV4 env).1.1 = false ∧ (checkV4 env).1.2 ≠ none ∧ (checkV4 env).2 = [] ∧
    (exceptOk env.interfaceByName = true → env.ifaceIPv4 ≠ [] →
      (checkV4 env).1.2 =
        some (errorf "can't find DHCP server: not supported on macOS" none)) := by
  rcases hi : env.interfaceByName with e | ifc
  · refine ⟨by simp [checkV4, hi], by simp [checkV4, hi], by simp [checkV4, hi], ?_⟩
    intro hok
    simp [exceptOk] at hok
  · rcases hip : env.ifaceIPv4 with _ | ⟨a, as⟩
    · exact ⟨by simp [checkV4, hi, hip], by simp [checkV4, hi, hip],
        by simp [checkV4, hi, hip], fun _ hne => absurd rfl hne⟩
    · have hne : env.ifaceIPv4.isEmpty = false := by rw [hip]; rfl
      exact ⟨by simp [checkV4, hi, hne, h], by simp [checkV4, hi, hne, h],
        by simp [checkV4, hi, hne, h], fun _ _ => by simp [checkV4, hi, hne, h]⟩

/-- A concrete darwin environment with a healthy interface. -/
def envC7 : EnvV4 :=
  { interfaceByName := .ok ⟨[1, 2, 3, 4, 5, 6]⟩
    ifaceIPv4 := [[192, 168, 1, 10]]
    goos := "darwin"
    newDiscovery := .ok ⟨[17, 34, 51, 68]⟩
    resolveSrc := .ok ⟨[192, 168, 1, 10]⟩
    resolveDst := .ok ⟨[255, 255, 255, 255]⟩
    bind := .ok ()
    send := .ok ()
    reads := []
    decode4 := fun _ => .error (.base "malformed" false) }

/-- Witness for **C7** at a concrete darwin environment. -/
theorem claim7_witness :
    (checkV4 envC7).1.1 = false ∧ (checkV4 envC7).2 = [] ∧
    (checkV4 envC7).1.2 =
      some (errorf "can't find DHCP server: not supported on macOS" none) :=
  ⟨(claim7_darwin_fails_fast envC7 rfl).1,
   (claim7_darwin_fails_fast envC7 rfl).2.2.1,
   (claim7_darwin_fails_fast envC7 rfl).2.2.2 rfl (by decide)⟩

/-- **C8**: the endpoint is closed exactly once whenever the bind is reached
and succeeds — on acceptance, timeout, receive error and send error alike —
and is never closed otherwise (bind not reached, or bind failed, in which
case the connection is nil and the deferred close is not registered). -/
theorem claim8_close_exactly_once (env4 : EnvV4) (env6 : EnvV6) :
    (checkV4 env4).2.count Action.close =
      (if preBindOkV4 env4 && exceptOk env4.bind then 1 else 0) ∧
    (checkV6 env6).2.count Action.close =
      (if preBindOkV6 env6 && exceptOk env6.bind then 1 else 0) := by
  constructor
  · unfold checkV4 preBindOkV4
    repeat' split
    all_goals
      simp_all +decide [exceptOk, bne, List.count_cons, List.count_append,
        runLoopV4_count_close]
  · unfold checkV6 preBindOkV6
    repeat' split
    all_goals
      simp_all +decide [exceptOk, bne, List.count_cons, List.count_append,
        runLoopV6_count_close]

/-- **C9**: in the raw v6 acceptance expression the `rcid != nil` guard is
evaluated before `*rcid`, so a response whose inner message lacks a
client-identifier option evaluates to a plain rejection (never a nil
dereference) whatever the request side holds; and with the request-side
client identifier present — as `dhcpv6.NewSolicit` guarantees — the
expression never nil-dereferences and agrees with the loop's matcher. -/
theorem claim9_no_nil_deref (t : Nat) (x rx : List Byte) (rcid : Option Duid)
    (cidOpt : Option Duid) (c : Duid) :
    matchV6eval t x none rx cidOpt = .ok false ∧
    matchV6eval t x rcid rx (some c) = .ok (matchV6 t x rcid rx c) := by
  constructor
  · by_cases h1 : (t == messageTypeAdvertise) = true
    · by_cases h2 : (x == rx) = true
      · simp [matchV6eval, h1, h2]
      · simp [matchV6eval, h1, h2]
    · simp [matchV6eval, h1]
  · by_cases h1 : (t == messageTypeAdvertise) = true <;>
      by_cases h2 : (x == rx) = true <;>
      cases rcid <;>
      simp [matchV6eval, matchV6, h1, h2]

/-- **C10**: when address resolution succeeds but the resolved IP differs
from the interface's first address of the family, both probes return
`(false, error)` before binding, and the error built on that branch passes
the then-necessarily-nil `err` to its `%w` verb, so it wraps no underlying
error. -/
theorem claim10_wrap_nil_error
    (env4 : EnvV4) (env6 : EnvV6) (a4 a6 : UDPAddr) (ifc4 ifc6 : IfaceInfo)
    (req4 : ReqV4) (req6 : ReqV6)
    (hi4 : env4.interfaceByName = .ok ifc4) (hip4 : env4.ifaceIPv4 ≠ [])
    (hg4 : env4.goos ≠ "darwin") (hn4 : env4.newDiscovery = .ok req4)
    (hr4 : env4.resolveSrc = .ok a4) (hm4 : a4.ip ≠ env4.ifaceIPv4.headI)
    (hi6 : env6.interfaceByName = .ok ifc6) (hip6 : env6.ifaceIPv6 ≠ [])
    (hn6 : env6.newSolicit = .ok req6)
    (hr6 : env6.resolveSrc = .ok a6) (hm6 : a6.ip ≠ env6.ifaceIPv6.headI) :
    checkV4 env4 = ((false, some (errorf "resolved UDP address is not src" none)), []) ∧
    (errorf "resolved UDP address is not src" none).wrapped = none ∧
    checkV6 env6 =
      ((false, some (errorf "dhcpv6: resolved UDP address is not src" none)), []) ∧
    (errorf "dhcpv6: resolved UDP address is not src" none).wrapped = none := by
  refine ⟨?_, rfl, ?_, rfl⟩
  · have hemp : env4.ifaceIPv4.isEmpty = false := by
      cases h : env4.ifaceIPv4 with
      | nil => exact absurd h hip4
      | cons a as => rfl
    have hg : (env4.goos == "darwin") = false := by simp [hg4]
    have hm : (a4.ip == env4.ifaceIPv4.headI) = false := by simp [hm4]
    simp [checkV4, hi4, hemp, hg, hn4, hr4, hm]
  · have hemp : env6.ifaceIPv6.isEmpty = false := by
      cases h : env6.ifaceIPv6 with
      | nil => exact absurd h hip6
      | cons a as => rfl
    have hm : (a6.ip == env6.ifaceIPv6.headI) = false := by simp [hm6]
    simp [checkV6, hi6, hemp, hn6, hr6, hm]

/-- A v4 environment whose resolved source address differs from the
interface's first IPv4 address. -/
def envC10v4 : EnvV4 :=
  { interfaceByName := .ok ⟨[1, 2, 3, 4, 5, 6]⟩
    ifaceIPv4 := [[192, 168, 1, 10]]
    goos := "linux"
    newDiscovery := .ok ⟨[17, 34, 51, 68]⟩
    resolveSrc := .ok ⟨[10, 0, 0, 1]⟩
    resolveDst := .ok ⟨[255, 255, 255, 255]⟩
    bind := .ok ()
    send := .ok ()
    reads := []
    decode4 := fun _ => .error (.base "malformed" false) }

/-- A v6 environment whose resolved source address differs from the
interface's first IPv6 address. -/
def envC10v6 : EnvV6 :=
  { interfaceByName := .ok ⟨[1, 2, 3, 4, 5, 6]⟩
    ifaceIPv6 := [[254, 128, 0, 1]]
    newSolicit := .ok ⟨[7, 8, 9], ⟨[3, 4]⟩⟩
    resolveSrc := .ok ⟨[254, 128, 0, 2]⟩
    resolveDst := .ok ⟨[255, 2, 1, 2]⟩
    bind := .ok ()
    send := .ok ()
    reads := []
    decode6 := fun _ => .error (.base "malformed" false) }

/-- Witness for **C10** at concrete environments. -/
theorem claim10_witness :
    checkV4 envC10v4 =
      ((false, some (errorf "resolved UDP address is not src" none)), []) ∧
    checkV6 envC10v6 =
      ((false, some (errorf "dhcpv6: resolved UDP address is not src" none)), []) :=
  ⟨(claim10_wrap_nil_error envC10v4 envC10v6 ⟨[10, 0, 0, 1]⟩ ⟨[254, 128, 0, 2]⟩
      ⟨[1, 2, 3, 4, 5, 6]⟩ ⟨[1, 2, 3, 4, 5, 6]⟩ ⟨[17, 34, 51, 68]⟩ ⟨[7, 8, 9], ⟨[3, 4]⟩⟩
      rfl (by decide) (by decide) rfl rfl (by decide)
      rfl (by decide) rfl rfl (by decide)).1,
   (claim10_wrap_nil_error envC10v4 envC10v6 ⟨[10, 0, 0, 1]⟩ ⟨[254, 128, 0, 2]⟩
      ⟨[1, 2, 3, 4, 5, 6]⟩ ⟨[1, 2, 3, 4, 5, 6]⟩ ⟨[17, 34, 51, 68]⟩ ⟨[7, 8, 9], ⟨[3, 4]⟩⟩
      rfl (by decide) (by decide) rfl rfl (by decide)
      rfl (by decide) rfl rfl (by decide)).2.2.1⟩

end DhcpProbe
